import Mathlib

/-!
Shallow embedding of `ballbot-omni-app/balance.py` (ROB 311 ball-bot
stability controller): the `LoopKiller` cancellation object, the
`SoftRealtimeLoop` soft real-time scheduler, the torque allocator
`compute_motor_torques`, the kinematic transform `compute_phi`, and the
planar-torque saturation block of the main loop.

Python floats are modelled as exact rationals (`ℚ`) except for the
kinematic matrix `J`, whose coefficients involve `√3`, `cos` and `sin`
and are modelled over `ℝ`.  Wall-clock time (`time.time()`) is passed
explicitly as a `now : ℚ` argument.  A Python division, which raises
`ZeroDivisionError` on a zero divisor, is modelled by `pyDiv` in the
`Except` monad.
-/

/-- Python's `a / b`: raises `ZeroDivisionError` when `b = 0`. -/
def pyDiv (a b : ℚ) : Except String ℚ :=
  if b = 0 then .error "ZeroDivisionError" else .ok (a / b)

/-- `np.sign` on exact rationals. -/
def npSign (x : ℚ) : ℚ :=
  if 0 < x then 1 else if x < 0 then -1 else 0

/-! ## LoopKiller (`balance.py` lines 39-86)

State of a `LoopKiller` object: the constructor argument `_fade_time`,
the two flags `_kill_now` and `_kill_soon` (class attributes initialised
to `False`), and `_soft_kill_time` (initialised to `None`). -/

structure LoopKiller where
  fade_time : ℚ
  kill_now_flag : Bool
  kill_soon : Bool
  soft_kill_time : Option ℚ
  deriving DecidableEq, Repr

/-- `LoopKiller.__init__(fade_time)`: both flags false, no soft-kill time.
(The three `signal.signal` registrations are process-global side effects
with no effect on the object's fields.) -/
def mkLoopKiller (fade_time : ℚ) : LoopKiller :=
  { fade_time := fade_time
    kill_now_flag := false
    kill_soon := false
    soft_kill_time := none }

/-- `LoopKiller.get_fade(self)` at wall-clock time `now` (lines 50-57).
In every reachable state `_soft_kill_time` is set whenever `_kill_soon`
holds (the setter assigns them together), so the `.getD 0` default is
never consulted on the paths the source exercises. -/
def LoopKiller.get_fade (k : LoopKiller) (now : ℚ) : ℚ :=
  if k.kill_soon then
    let t := now - k.soft_kill_time.getD 0
    if t ≥ k.fade_time then 0
    else 1 - t / k.fade_time
  else 1

/-- The `kill_now` property getter (lines 62-70) at wall-clock time `now`.
It both returns a boolean and possibly promotes `_kill_soon` to
`_kill_now` (when the fade has run out), so it returns the updated
object as well. -/
def LoopKiller.kill_now_get (k : LoopKiller) (now : ℚ) : Bool × LoopKiller :=
  if k.kill_now_flag then (true, k)
  else if k.kill_soon then
    let t := now - k.soft_kill_time.getD 0
    if t > k.fade_time then (true, { k with kill_now_flag := true })
    else (false, k)
  else (false, k)

/-- The `kill_now` property setter (lines 72-86) at wall-clock time `now`. -/
def LoopKiller.kill_now_set (k : LoopKiller) (val : Bool) (now : ℚ) : LoopKiller :=
  if val then
    if k.kill_soon then { k with kill_now_flag := true }
    else if k.fade_time > 0 then
      { k with kill_soon := true, soft_kill_time := some now }
    else { k with kill_now_flag := true }
  else
    { k with kill_now_flag := false, kill_soon := false, soft_kill_time := none }

/-- The *running* state of the spec's tri-state cancellation model. -/
def LoopKiller.running (k : LoopKiller) : Prop :=
  k.kill_now_flag = false ∧ k.kill_soon = false

/-- The *fading* state of the spec's tri-state cancellation model. -/
def LoopKiller.fading (k : LoopKiller) : Prop :=
  k.kill_now_flag = false ∧ k.kill_soon = true

/-- The *stopped* state of the spec's tri-state cancellation model. -/
def LoopKiller.stopped (k : LoopKiller) : Prop :=
  k.kill_now_flag = true

instance (k : LoopKiller) : Decidable k.running := by
  unfold LoopKiller.running; infer_instance

instance (k : LoopKiller) : Decidable k.fading := by
  unfold LoopKiller.fading; infer_instance

instance (k : LoopKiller) : Decidable k.stopped := by
  unfold LoopKiller.stopped; infer_instance

/-- One operation on the public interface of `LoopKiller`: a stop request
(`kill_now = True`), a reset (`kill_now = False`), or a query of the
`kill_now` property (which may mutate), each at a wall-clock time. -/
inductive KillerOp where
  | requestStop (now : ℚ)
  | reset (now : ℚ)
  | query (now : ℚ)
  deriving DecidableEq, Repr

/-- Apply one public-interface operation to a `LoopKiller`. -/
def LoopKiller.applyOp (k : LoopKiller) : KillerOp → LoopKiller
  | .requestStop now => k.kill_now_set true now
  | .reset now => k.kill_now_set false now
  | .query now => (k.kill_now_get now).2

/-- Apply a sequence of public-interface operations in order. -/
def LoopKiller.applyOps (k : LoopKiller) (ops : List KillerOp) : LoopKiller :=
  ops.foldl LoopKiller.applyOp k

/-- Whether an operation is a reset (`kill_now = False` setter call). -/
def KillerOp.isReset : KillerOp → Bool
  | .reset _ => true
  | _ => false

/-! ## SoftRealtimeLoop (`balance.py` lines 88-178)

The scheduler's mutable fields.  The sleeping/busy-polling in `__next__`
only decides *when* the call returns; it never touches the deadline
arithmetic, so a run of the iterator is modelled by the list of
wall-clock wake times `tWake` observed when each `__next__` call's wait
completes.  `sleep_t_agg` accumulates actual sleep durations and is
carried along unchanged (its value is irrelevant to every field update
below). -/

structure SRTLoop where
  t0 : ℚ
  t1 : ℚ
  dt : ℚ
  killer : LoopKiller
  ttarg : Option ℚ
  sum_err : ℚ
  sum_var : ℚ
  sleep_t_agg : ℚ
  n : ℕ
  report : Bool
  deriving DecidableEq, Repr

/-- `SoftRealtimeLoop.__init__(dt, report, fade)` at wall-clock time `now`
(lines 89-98): `t0 = t1 = time.time()`, a fresh `LoopKiller(fade)`,
`ttarg = None`, zeroed statistics. -/
def mkSoftRealtimeLoop (now dt : ℚ) (report : Bool) (fade : ℚ) : SRTLoop :=
  { t0 := now
    t1 := now
    dt := dt
    killer := mkLoopKiller fade
    ttarg := none
    sum_err := 0
    sum_var := 0
    sleep_t_agg := 0
    n := 0
    report := report }

/-- `SoftRealtimeLoop.__iter__` at wall-clock time `now` (lines 145-147):
`t0 = t1 = time.time() + dt`. -/
def SRTLoop.iterStart (s : SRTLoop) (now : ℚ) : SRTLoop :=
  { s with t0 := now + s.dt, t1 := now + s.dt }

/-- `SoftRealtimeLoop.__next__` (lines 149-178), given the wall-clock
time `tWake` at which its wait for the deadline `t1` completes.
`none` models `StopIteration` (the `kill_now` checks at entry and after
the wait); otherwise the call advances `t1` by `dt`, initialises `ttarg`
on the first tick (skipping error accounting), accumulates the timing
error on later ticks, and yields `t1 - t0`. -/
def SRTLoop.next (s : SRTLoop) (tWake : ℚ) : Option (ℚ × SRTLoop) :=
  if (s.killer.kill_now_get tWake).1 then none
  else
    let k := (s.killer.kill_now_get tWake).2
    let t1 := s.t1 + s.dt
    match s.ttarg with
    | none =>
        some (t1 - s.t0, { s with killer := k, t1 := t1, ttarg := some (tWake + s.dt) })
    | some tg =>
        let error := tWake - tg
        some (t1 - s.t0,
          { s with killer := k, t1 := t1,
                   sum_err := s.sum_err + error,
                   sum_var := s.sum_var + error ^ 2,
                   n := s.n + 1,
                   ttarg := some (tg + s.dt) })

/-- Iterate `__next__` over a list of wake times, collecting the yielded
values and the final state; stops early on `StopIteration`. -/
def SRTLoop.runNexts (s : SRTLoop) : List ℚ → List ℚ × SRTLoop
  | [] => ([], s)
  | tWake :: ts =>
      match s.next tWake with
      | none => ([], s)
      | some (y, s1) =>
          let r := s1.runNexts ts
          (y :: r.1, r.2)

/-- The value of the next-deadline field `t1` at the moment the `n`-th
tick fires (`1 ≤ n`): the `t1` the `n`-th `__next__` call waits for,
i.e. the `t1` field after the first `n - 1` calls have completed. -/
def SRTLoop.nominalDeadline (s : SRTLoop) (ws : List ℚ) (n : ℕ) : ℚ :=
  ((s.runNexts (ws.take (n - 1))).2).t1

/-- `SoftRealtimeLoop.__del__`'s statistics (lines 100-114) with Python
division semantics, at wall-clock time `now`, in source evaluation
order: the loop frequency `1.0 / dt`, the mean timing error
`sum_err / n`, the radicand `(sum_var - sum_err**2 / n) / (n - 1)` of
the standard deviation (the enclosing `sqrt` is irrational and dropped;
every division the source performs is kept), and the sleeping fraction
`sleep_t_agg / self.time()` where `self.time()` is `now - t0`. -/
def SRTLoop.reportValues (s : SRTLoop) (now : ℚ) : Except String (ℚ × ℚ × ℚ × ℚ) := do
  let hz ← pyDiv 1 s.dt
  let avg ← pyDiv s.sum_err (s.n : ℚ)
  let meanSq ← pyDiv (s.sum_err ^ 2) (s.n : ℚ)
  let radicand ← pyDiv (s.sum_var - meanSq) ((s.n : ℚ) - 1)
  let sleepFrac ← pyDiv s.sleep_t_agg (now - s.t0)
  pure (hz, avg, radicand, sleepFrac)

/-! ## Constructors as fallible Python calls (`balance.py` lines 40-45, 89-98)

Neither `LoopKiller.__init__` nor `SoftRealtimeLoop.__init__` contains a
raise, an assert, or a division: construction succeeds for every
argument value.  The `Except` wrapper records that a Python constructor
*could* fail by raising; these two never do. -/

/-- `LoopKiller(fade_time)` as a fallible Python call: no validation of
`fade_time` occurs, so the call always returns normally. -/
def initLoopKiller (fade_time : ℚ) : Except String LoopKiller :=
  .ok (mkLoopKiller fade_time)

/-- `SoftRealtimeLoop(dt, report, fade)` as a fallible Python call: no
validation of `dt` or `fade` occurs, so the call always returns
normally. -/
def initSoftRealtimeLoop (now dt : ℚ) (report : Bool) (fade : ℚ) :
    Except String SRTLoop :=
  .ok (mkSoftRealtimeLoop now dt report fade)

/-! ## Torque allocator, saturation, kinematic transform -/

/-- `MAX_PLANAR_DUTY = 0.8` (line 195). -/
def MAX_PLANAR_DUTY : ℚ := 8 / 10

/-- `compute_motor_torques(Tx, Ty, Tz)` (lines 233-264): the closed-form
inverse-geometry mapping with the source's literal decimal
coefficients. -/
def compute_motor_torques (Tx Ty Tz : ℚ) : ℚ × ℚ × ℚ :=
  ((-3333 / 10000) * (Tz - (28284 / 10000) * Ty),
   (-3333 / 10000) * (Tz + (14142 / 10000) * (Ty + (17320 / 10000) * Tx)),
   (-3333 / 10000) * (Tz + (14142 / 10000) * (Ty - (17320 / 10000) * Tx)))

/-- The saturation block of the main loop (lines 407-411), for one planar
axis: `if np.abs(T) > MAX_PLANAR_DUTY: T = np.sign(T) * MAX_PLANAR_DUTY`. -/
def saturatePlanar (T : ℚ) : ℚ :=
  if |T| > MAX_PLANAR_DUTY then npSign T * MAX_PLANAR_DUTY else T

/-- Lines 407-415 of the main loop: both planar demands are saturated and
only then passed to `compute_motor_torques` together with the yaw demand. -/
def loopTorqueAllocation (Tx Ty Tz : ℚ) : ℚ × ℚ × ℚ :=
  compute_motor_torques (saturatePlanar Tx) (saturatePlanar Ty) Tz

/-! ## Kinematic transform (`balance.py` lines 191-193, 216-229, 268-290)

The physical constants and the nine coefficients of `J`, computed once at
module load exactly as in the source (`J13 = -1 * J12`, `J23 = J22`,
`J32 = J31`, `J33 = J31`), over `ℝ` since they involve `√3`, `cos` and
`sin` of the mount angle. -/

/-- `RW = 0.0048` (wheel radius, line 191). -/
noncomputable def RW : ℝ := 48 / 10000

/-- `RK = 0.1210` (ball radius, line 192). -/
noncomputable def RK : ℝ := 1210 / 10000

/-- `ALPHA = np.deg2rad(45)` (mount angle, line 193). -/
noncomputable def ALPHA : ℝ := Real.pi / 4

/-- `J11 = 0` (line 217). -/
noncomputable def J11 : ℝ := 0

/-- `J12 = -np.sqrt(3) * RW / (3 * RK * np.cos(ALPHA))` (line 218). -/
noncomputable def J12 : ℝ := -Real.sqrt 3 * RW / (3 * RK * Real.cos ALPHA)

/-- `J13 = -1 * J12` (line 219). -/
noncomputable def J13 : ℝ := -1 * J12

/-- `J21 = -2 * RW / (3 * RK * np.cos(ALPHA))` (line 221). -/
noncomputable def J21 : ℝ := -2 * RW / (3 * RK * Real.cos ALPHA)

/-- `J22 = RW / (3 * RK * np.cos(ALPHA))` (line 222). -/
noncomputable def J22 : ℝ := RW / (3 * RK * Real.cos ALPHA)

/-- `J23 = J22` (line 223). -/
noncomputable def J23 : ℝ := J22

/-- `J31 = RW / (3 * RK * np.sin(ALPHA))` (line 225). -/
noncomputable def J31 : ℝ := RW / (3 * RK * Real.sin ALPHA)

/-- `J32 = J31` (line 226). -/
noncomputable def J32 : ℝ := J31

/-- `J33 = J31` (line 227). -/
noncomputable def J33 : ℝ := J31

/-- `J = np.array([[J11, J12, J13], [J21, J22, J23], [J31, J32, J33]])`
(line 229). -/
noncomputable def J : Matrix (Fin 3) (Fin 3) ℝ :=
  !![J11, J12, J13; J21, J22, J23; J31, J32, J33]

/-- `compute_phi(psi_1, psi_2, psi_3)` (lines 268-290): stacks the three
encoder angles into a column vector, multiplies by `J`
(`phi = np.matmul(J, psi)`), and returns the three components. -/
noncomputable def compute_phi (psi_1 psi_2 psi_3 : ℝ) : ℝ × ℝ × ℝ :=
  let psi : Fin 3 → ℝ := ![psi_1, psi_2, psi_3]
  let phi := J.mulVec psi
  (phi 0, phi 1, phi 2)

/-! ## Theorems -/

/-- C5: planar-torque saturation is sign-preserving magnitude clipping to
`±MAX_PLANAR_DUTY`: above the limit the output has magnitude exactly
`MAX_PLANAR_DUTY` and the sign of the input; at or below the limit the
output is the input unchanged; and the main loop applies this clamp to
both `Tx` and `Ty` before calling `compute_motor_torques`. -/
theorem saturation_sign_preserving_clip :
    (∀ T : ℚ, MAX_PLANAR_DUTY < |T| →
        |saturatePlanar T| = MAX_PLANAR_DUTY ∧ npSign (saturatePlanar T) = npSign T) ∧
    (∀ T : ℚ, |T| ≤ MAX_PLANAR_DUTY → saturatePlanar T = T) ∧
    (∀ Tx Ty Tz : ℚ, loopTorqueAllocation Tx Ty Tz
        = compute_motor_torques (saturatePlanar Tx) (saturatePlanar Ty) Tz) := by
  refine ⟨?_, ?_, fun _ _ _ => rfl⟩
  · intro T hT
    have hM : (0 : ℚ) < MAX_PLANAR_DUTY := by norm_num [MAX_PLANAR_DUTY]
    have hsat : saturatePlanar T = npSign T * MAX_PLANAR_DUTY := by
      simp [saturatePlanar, hT]
    rcases lt_trichotomy T 0 with hneg | hzero | hpos
    · have hs : npSign T = -1 := by simp [npSign, hneg, not_lt.mpr hneg.le]
      constructor
      · rw [hsat, hs, abs_of_nonpos (by linarith)]; ring
      · rw [hsat, hs]
        norm_num [npSign, MAX_PLANAR_DUTY]
    · exfalso; rw [hzero] at hT; simp at hT; linarith
    · have hs : npSign T = 1 := by simp [npSign, hpos]
      constructor
      · rw [hsat, hs, abs_of_pos (by linarith)]; ring
      · rw [hsat, hs]; simp [npSign, hM]
  · intro T hT
    simp [saturatePlanar, not_lt.mpr hT]

/-- Witness for C5 at concrete inputs `T = 2` (above the limit) and
`T = 1/2` (below the limit). -/
theorem saturation_sign_preserving_clip_witness :
    |saturatePlanar 2| = MAX_PLANAR_DUTY ∧ saturatePlanar (1/2) = 1/2 :=
  ⟨(saturation_sign_preserving_clip.1 2 (by norm_num [MAX_PLANAR_DUTY])).1,
   saturation_sign_preserving_clip.2.1 (1/2) (by norm_num [MAX_PLANAR_DUTY, abs_le])⟩

/-- C6: the torque allocator realizes the documented 120°-geometry: for a
pure x-axis input (`Tx = M`, `Ty = 0`) motor 1 receives no x
contribution and motors 2 and 3 receive equal and opposite x
contributions; and for every input the sum `T1 + T2 + T3` is
`(-0.9999)·Tz` — a multiple of the yaw component alone, with the `Tx`
and `Ty` contributions cancelling exactly. -/
theorem compute_motor_torques_geometry :
    (∀ M Tz : ℚ,
      (compute_motor_torques M 0 Tz).1 = (compute_motor_torques 0 0 Tz).1 ∧
      (compute_motor_torques M 0 Tz).2.1 - (compute_motor_torques 0 0 Tz).2.1
        = -((compute_motor_torques M 0 Tz).2.2 - (compute_motor_torques 0 0 Tz).2.2)) ∧
    (∀ Tx Ty Tz : ℚ,
      (compute_motor_torques Tx Ty Tz).1 + (compute_motor_torques Tx Ty Tz).2.1
          + (compute_motor_torques Tx Ty Tz).2.2
        = (-9999 / 10000) * Tz) := by
  constructor
  · intro M Tz
    constructor
    · simp [compute_motor_torques]
    · simp only [compute_motor_torques]; ring
  · intro Tx Ty Tz
    simp only [compute_motor_torques]; ring

/-- C7: `compute_phi` is total and is exactly the 3×3 matrix multiply
`phi = J · psi`, i.e. the explicit linear combination of the encoder
angles with the nine startup-computed coefficients, which are in turn
the source's closed forms in the three physical constants `RW`, `RK`,
`ALPHA`. -/
theorem compute_phi_is_matrix_multiply :
    ∀ psi_1 psi_2 psi_3 : ℝ,
      compute_phi psi_1 psi_2 psi_3
          = (J11 * psi_1 + J12 * psi_2 + J13 * psi_3,
             J21 * psi_1 + J22 * psi_2 + J23 * psi_3,
             J31 * psi_1 + J32 * psi_2 + J33 * psi_3) ∧
      compute_phi psi_1 psi_2 psi_3
          = (0 * psi_1 + (-Real.sqrt 3 * RW / (3 * RK * Real.cos ALPHA)) * psi_2
                + (Real.sqrt 3 * RW / (3 * RK * Real.cos ALPHA)) * psi_3,
             (-2 * RW / (3 * RK * Real.cos ALPHA)) * psi_1
                + (RW / (3 * RK * Real.cos ALPHA)) * psi_2
                + (RW / (3 * RK * Real.cos ALPHA)) * psi_3,
             (RW / (3 * RK * Real.sin ALPHA)) * psi_1
                + (RW / (3 * RK * Real.sin ALPHA)) * psi_2
                + (RW / (3 * RK * Real.sin ALPHA)) * psi_3) := by
  intro p1 p2 p3
  have h : compute_phi p1 p2 p3
      = (J11 * p1 + J12 * p2 + J13 * p3,
         J21 * p1 + J22 * p2 + J23 * p3,
         J31 * p1 + J32 * p2 + J33 * p3) := by
    simp [compute_phi, J, Matrix.mulVec, Matrix.dotProduct, Fin.sum_univ_three]
  refine ⟨h, ?_⟩
  rw [h]
  simp [J11, J12, J13, J21, J22, J23, J31, J32, J33, Prod.mk.injEq]
  ring

/-- C2: a stop request in the running state transitions to fading when
`fade_time > 0` (recording the request time) and directly to stopped
when `fade_time = 0`; a second stop request while fading forces stopped
immediately; and while fading with the fade begun at `T`, the `kill_now`
query returns false as long as fewer than `fade_time` seconds have
elapsed since the request. -/
theorem loopkiller_stop_transitions :
    (∀ (k : LoopKiller) (now : ℚ), k.running → 0 < k.fade_time →
        (k.kill_now_set true now).fading ∧
        (k.kill_now_set true now).soft_kill_time = some now) ∧
    (∀ (k : LoopKiller) (now : ℚ), k.running → k.fade_time = 0 →
        (k.kill_now_set true now).stopped) ∧
    (∀ (k : LoopKiller) (now : ℚ), k.fading → (k.kill_now_set true now).stopped) ∧
    (∀ (k : LoopKiller) (T now : ℚ), k.fading → k.soft_kill_time = some T →
        now - T < k.fade_time → (k.kill_now_get now).1 = false) := by
  refine ⟨?_, ?_, ?_, ?_⟩
  · intro k now hrun hft
    obtain ⟨h1, h2⟩ := hrun
    simp [LoopKiller.kill_now_set, LoopKiller.fading, h1, h2, hft]
  · intro k now hrun hft
    obtain ⟨h1, h2⟩ := hrun
    simp [LoopKiller.kill_now_set, LoopKiller.stopped, h1, h2, hft]
  · intro k now hfad
    obtain ⟨h1, h2⟩ := hfad
    simp [LoopKiller.kill_now_set, LoopKiller.stopped, h2]
  · intro k T now hfad hT hlt
    obtain ⟨h1, h2⟩ := hfad
    simp [LoopKiller.kill_now_get, h1, h2, hT, not_lt.mpr hlt.le]

/-- Witness for C2: a killer with `fade_time = 2` fades on the first
request and stops on the second; a killer with `fade_time = 0` stops at
once; during the fade the `kill_now` query still answers false. -/
theorem loopkiller_stop_transitions_witness :
    ((mkLoopKiller 2).kill_now_set true 0).fading ∧
    ((mkLoopKiller 0).kill_now_set true 0).stopped ∧
    (((mkLoopKiller 2).kill_now_set true 0).kill_now_set true 1).stopped ∧
    (((mkLoopKiller 2).kill_now_set true 0).kill_now_get 1).1 = false :=
  ⟨(loopkiller_stop_transitions.1 (mkLoopKiller 2) 0 ⟨rfl, rfl⟩
     (by norm_num [mkLoopKiller])).1,
   loopkiller_stop_transitions.2.1 (mkLoopKiller 0) 0 ⟨rfl, rfl⟩ rfl,
   loopkiller_stop_transitions.2.2.1 ((mkLoopKiller 2).kill_now_set true 0) 1
     (by decide),
   loopkiller_stop_transitions.2.2.2 ((mkLoopKiller 2).kill_now_set true 0) 0 1
     (by decide) (by decide) (by norm_num [mkLoopKiller, LoopKiller.kill_now_set])⟩

/-- C3: while fading (fade begun at `T`, `fade_time > 0`), `get_fade` is a
pure function of the elapsed time `t = now - T`: it is `1` at `t = 0`,
equals `1 - t / fade_time` on `0 ≤ t < fade_time`, is `0` for all
`t ≥ fade_time`, stays in `[0, 1]` for all `t ≥ 0`, and is monotonically
non-increasing in `t`. -/
theorem get_fade_pure_linear_clamped :
    ∀ (k : LoopKiller) (T : ℚ), k.fading → k.soft_kill_time = some T →
      0 < k.fade_time →
      (k.get_fade T = 1) ∧
      (∀ t : ℚ, 0 ≤ t → t < k.fade_time → k.get_fade (T + t) = 1 - t / k.fade_time) ∧
      (∀ t : ℚ, k.fade_time ≤ t → k.get_fade (T + t) = 0) ∧
      (∀ t : ℚ, 0 ≤ t → 0 ≤ k.get_fade (T + t) ∧ k.get_fade (T + t) ≤ 1) ∧
      (∀ t u : ℚ, 0 ≤ t → t ≤ u → k.get_fade (T + u) ≤ k.get_fade (T + t)) := by
  intro k T hfad hT hF
  obtain ⟨h1, h2⟩ := hfad
  have hval : ∀ t : ℚ, k.get_fade (T + t)
      = if k.fade_time ≤ t then 0 else 1 - t / k.fade_time := by
    intro t
    simp [LoopKiller.get_fade, h2, hT, ge_iff_le]
  refine ⟨?_, ?_, ?_, ?_, ?_⟩
  · have h := hval 0
    rw [add_zero] at h
    rw [h, if_neg (not_le.mpr hF)]
    simp
  · intro t ht hlt
    rw [hval t, if_neg (not_le.mpr hlt)]
  · intro t hge
    rw [hval t, if_pos hge]
  · intro t ht
    rw [hval t]
    split_ifs with h
    · norm_num
    · have hlt : t < k.fade_time := not_le.mp h
      have hdiv0 : 0 ≤ t / k.fade_time := div_nonneg ht hF.le
      have hdiv1 : t / k.fade_time < 1 := (div_lt_one hF).mpr hlt
      constructor <;> linarith
  · intro t u ht htu
    rw [hval t, hval u]
    split_ifs with hu hx hx
    · exact le_refl 0
    · have hlt : t < k.fade_time := not_le.mp hx
      have hdiv1 : t / k.fade_time < 1 := (div_lt_one hF).mpr hlt
      linarith
    · linarith
    · have : t / k.fade_time ≤ u / k.fade_time := by gcongr
      linarith

/-- Witness for C3 at the fading killer `⟨2, false, true, some 5⟩`
(fade of 2 seconds begun at time 5), evaluated at elapsed times
`0`, `1` and `3`. -/
theorem get_fade_pure_linear_clamped_witness :
    (LoopKiller.get_fade ⟨2, false, true, some 5⟩ 5 = 1) ∧
    (LoopKiller.get_fade ⟨2, false, true, some 5⟩ (5 + 1) = 1 - 1 / 2) ∧
    (LoopKiller.get_fade ⟨2, false, true, some 5⟩ (5 + 3) = 0) := by
  have h := get_fade_pure_linear_clamped ⟨2, false, true, some 5⟩ 5 ⟨rfl, rfl⟩ rfl
    (by norm_num)
  exact ⟨h.1, h.2.1 1 (by norm_num) (by norm_num), h.2.2.1 3 (by norm_num)⟩

/-- C4 counterexample: the claim that *every* public-interface operation
sequence keeps a stopped killer stopped is false: after stopping
`LoopKiller(fade_time=0)` with a stop request, the setter call
`kill_now = False` (a public setter call) returns it to running. -/
theorem stopped_reset_counterexample :
    ((mkLoopKiller 0).applyOps [.requestStop 0]).stopped ∧
    ¬ ((mkLoopKiller 0).applyOps [.requestStop 0, .reset 1]).stopped ∧
    ((mkLoopKiller 0).applyOps [.requestStop 0, .reset 1]).running := by
  decide

/-- C4 (amended): once stopped, every sequence of stop requests and
`kill_now` queries — every public-interface operation except the
`kill_now = False` setter call, which deliberately resets the object —
leaves the killer stopped. -/
theorem stopped_absorbing_without_reset :
    ∀ (k : LoopKiller) (ops : List KillerOp), k.stopped →
      (∀ op ∈ ops, op.isReset = false) → (k.applyOps ops).stopped := by
  intro k ops
  induction ops generalizing k with
  | nil => intro hk _; exact hk
  | cons op ops ih =>
      intro hk hops
      have hop : op.isReset = false := hops op (by simp)
      have hstep : (k.applyOp op).stopped := by
        cases op with
        | requestStop now =>
            simp only [LoopKiller.applyOp, LoopKiller.kill_now_set,
              LoopKiller.stopped] at hk ⊢
            split_ifs <;> simp [hk]
        | reset now => simp [KillerOp.isReset] at hop
        | query now =>
            simp only [LoopKiller.applyOp, LoopKiller.kill_now_get,
              LoopKiller.stopped] at hk ⊢
            simp [hk]
      exact ih (k.applyOp op) hstep (fun o ho => hops o (by simp [ho]))

/-- Witness for the amended C4: a stopped killer stays stopped across a
further stop request and a query. -/
theorem stopped_absorbing_without_reset_witness :
    (LoopKiller.applyOps ⟨2, true, true, some 0⟩ [.requestStop 1, .query 3]).stopped :=
  stopped_absorbing_without_reset ⟨2, true, true, some 0⟩ [.requestStop 1, .query 3]
    rfl (by decide)

/-- Core induction for the scheduler: from any state whose killer is
running, `runNexts` consumes every wake time, never changes `t0`, `dt`
or the killer, advances `t1` by exactly `dt` per completed tick —
regardless of the wake times — and yields `t1 + (j+1)·dt - t0` on the
`j`-th tick. -/
theorem SRTLoop.runNexts_running (ws : List ℚ) :
    ∀ s : SRTLoop, s.killer.kill_now_flag = false → s.killer.kill_soon = false →
      ((s.runNexts ws).2.t1 = s.t1 + ws.length * s.dt) ∧
      ((s.runNexts ws).2.dt = s.dt) ∧
      ((s.runNexts ws).2.t0 = s.t0) ∧
      ((s.runNexts ws).2.killer = s.killer) ∧
      ((s.runNexts ws).1
        = (List.range ws.length).map
            (fun j : ℕ => s.t1 + ((j : ℚ) + 1) * s.dt - s.t0)) := by
  induction ws with
  | nil => intro s h1 h2; simp [SRTLoop.runNexts]
  | cons w ws ih =>
      intro s h1 h2
      have hkg : s.killer.kill_now_get w = (false, s.killer) := by
        simp [LoopKiller.kill_now_get, h1, h2]
      cases htt : s.ttarg with
      | none =>
          have hnext : s.next w = some (s.t1 + s.dt - s.t0,
              { s with t1 := s.t1 + s.dt, ttarg := some (w + s.dt) }) := by
            simp [SRTLoop.next, hkg, htt]
          obtain ⟨ht1, hdt, ht0, hkil, hys⟩ :=
            ih { s with t1 := s.t1 + s.dt, ttarg := some (w + s.dt) } h1 h2
          refine ⟨?_, ?_, ?_, ?_, ?_⟩
          · simp only [SRTLoop.runNexts, hnext, ht1, List.length_cons]
            push_cast
            ring
          · simpa only [SRTLoop.runNexts, hnext] using hdt
          · simpa only [SRTLoop.runNexts, hnext] using ht0
          · simpa only [SRTLoop.runNexts, hnext] using hkil
          · simp only [SRTLoop.runNexts, hnext, hys, List.length_cons,
              List.range_succ_eq_map, List.map_cons, List.map_map, List.cons.injEq]
            constructor
            · push_cast; ring
            · congr 1
              funext j
              simp only [Function.comp_apply]
              push_cast
              ring
      | some tg =>
          have hnext : s.next w = some (s.t1 + s.dt - s.t0,
              { s with t1 := s.t1 + s.dt,
                       sum_err := s.sum_err + (w - tg),
                       sum_var := s.sum_var + (w - tg) ^ 2,
                       n := s.n + 1,
                       ttarg := some (tg + s.dt) }) := by
            simp [SRTLoop.next, hkg, htt]
          obtain ⟨ht1, hdt, ht0, hkil, hys⟩ :=
            ih { s with t1 := s.t1 + s.dt,
                        sum_err := s.sum_err + (w - tg),
                        sum_var := s.sum_var + (w - tg) ^ 2,
                        n := s.n + 1,
                        ttarg := some (tg + s.dt) } h1 h2
          refine ⟨?_, ?_, ?_, ?_, ?_⟩
          · simp only [SRTLoop.runNexts, hnext, ht1, List.length_cons]
            push_cast
            ring
          · simpa only [SRTLoop.runNexts, hnext] using hdt
          · simpa only [SRTLoop.runNexts, hnext] using ht0
          · simpa only [SRTLoop.runNexts, hnext] using hkil
          · simp only [SRTLoop.runNexts, hnext, hys, List.length_cons,
              List.range_succ_eq_map, List.map_cons, List.map_map, List.cons.injEq]
            constructor
            · push_cast; ring
            · congr 1
              funext j
              simp only [Function.comp_apply]
              push_cast
              ring

/-- C1: in every run of the iterator (any list of wake times, i.e. any
loop-body durations), the nominal deadline of the `n`-th tick — the
value of `t1` the `n`-th `__next__` call waits for — equals
`start + n·dt` exactly: each deadline is the previous deadline plus
`dt`, never the current time plus `dt`, so the schedule is an exact
arithmetic sequence independent of the actual wake times. -/
theorem nominalDeadline_no_drift (c start dt : ℚ) (ws : List ℚ) (n : ℕ)
    (_hdt : 0 < dt) (hn : 1 ≤ n) (hlen : n - 1 ≤ ws.length) :
    ((mkSoftRealtimeLoop c dt false 0).iterStart start).nominalDeadline ws n
      = start + n * dt := by
  have h := SRTLoop.runNexts_running (ws.take (n - 1))
    ((mkSoftRealtimeLoop c dt false 0).iterStart start) rfl rfl
  unfold SRTLoop.nominalDeadline
  rw [h.1]
  simp only [SRTLoop.iterStart, mkSoftRealtimeLoop, List.length_take,
    min_eq_left hlen]
  have hcast : ((n - 1 : ℕ) : ℚ) = (n : ℚ) - 1 := by
    push_cast [hn]
    ring
  rw [hcast]
  ring

/-- Witness for C1: with `dt = 1` and iteration started at time 5, the
second tick's nominal deadline is `5 + 2·1 = 7`, whatever the wake
times were. -/
theorem nominalDeadline_no_drift_witness :
    ((mkSoftRealtimeLoop 0 1 false 0).iterStart 5).nominalDeadline [10, 20, 30] 2
      = 7 := by
  rw [nominalDeadline_no_drift 0 5 1 [10, 20, 30] 2 (by norm_num) (by norm_num)
    (by norm_num)]
  norm_num

/-- C10: the values yielded by the iterator are the nominal elapsed times
`t1 - t0`: the `n`-th successful `__next__` call (counting from 1)
yields exactly `n·dt`, independent of the actual wake times — nominal
schedule time, not measured wall-clock time. -/
theorem iter_yields_nominal_times (c start dt : ℚ) (ws : List ℚ) :
    (((mkSoftRealtimeLoop c dt false 0).iterStart start).runNexts ws).1
      = (List.range ws.length).map (fun j : ℕ => ((j : ℚ) + 1) * dt) := by
  have h := SRTLoop.runNexts_running ws
    ((mkSoftRealtimeLoop c dt false 0).iterStart start) rfl rfl
  rw [h.2.2.2.2]
  simp only [SRTLoop.iterStart, mkSoftRealtimeLoop]
  congr 1
  funext j
  ring

/-- C8 counterexample: the claim that construction fails fast on
non-positive divisors is false at the concrete inputs `dt = -1` and
`fade_time = -1`: both `SoftRealtimeLoop.__init__` and
`LoopKiller.__init__` return normally, accepting the invalid values. -/
theorem init_accepts_invalid_divisors :
    initSoftRealtimeLoop 0 (-1) false (-1)
        = .ok (mkSoftRealtimeLoop 0 (-1) false (-1)) ∧
    initLoopKiller (-1) = .ok (mkLoopKiller (-1)) :=
  ⟨rfl, rfl⟩

/-- C8 (amended): neither constructor validates its arguments — both
return normally for every `dt` and `fade_time`, non-positive values
included; the invalid divisor only causes a failure later (for
instance the report's `1 / dt` raises `ZeroDivisionError` when the
accepted `dt` was `0`). -/
theorem init_never_fails :
    (∀ (now dt : ℚ) (report : Bool) (fade : ℚ),
        initSoftRealtimeLoop now dt report fade
          = .ok (mkSoftRealtimeLoop now dt report fade)) ∧
    (∀ fade_time : ℚ, initLoopKiller fade_time = .ok (mkLoopKiller fade_time)) ∧
    SRTLoop.reportValues (mkSoftRealtimeLoop 0 0 true 0) 1
      = .error "ZeroDivisionError" := by
  refine ⟨fun _ _ _ _ => rfl, fun _ => rfl, ?_⟩
  simp [SRTLoop.reportValues, mkSoftRealtimeLoop, pyDiv, Bind.bind, Except.bind]

/-- C9 counterexample: the error-statistics report is NOT guarded for the
zero-tick case: a `SoftRealtimeLoop(dt=1, report=True)` reporting after
zero completed ticks divides `sum_err` by `n = 0` and raises
`ZeroDivisionError`. -/
theorem report_divides_by_zero_at_zero_ticks :
    SRTLoop.reportValues (mkSoftRealtimeLoop 0 1 true 0) 5
      = .error "ZeroDivisionError" := by
  simp [SRTLoop.reportValues, mkSoftRealtimeLoop, pyDiv, Bind.bind, Except.bind]

/-- C9 (amended): the statistics report assumes at least two completed
ticks and has no guard: for every state with `n = 0` (the mean divides
by `n`) or `n = 1` (the stddev radicand divides by `n - 1`) and any
`dt ≠ 0` (so the earlier `1 / dt` print succeeds), the report raises
`ZeroDivisionError`. -/
theorem report_requires_two_ticks :
    ∀ (s : SRTLoop) (now : ℚ), s.dt ≠ 0 → (s.n = 0 ∨ s.n = 1) →
      s.reportValues now = .error "ZeroDivisionError" := by
  intro s now hdt hn
  rcases hn with h | h <;>
    simp [SRTLoop.reportValues, pyDiv, h, hdt, Bind.bind, Except.bind]

/-- Witness for the amended C9: a loop with `dt = 2` and zero completed
ticks reports a `ZeroDivisionError`. -/
theorem report_requires_two_ticks_witness :
    SRTLoop.reportValues (mkSoftRealtimeLoop 3 2 true 0) 4
      = .error "ZeroDivisionError" :=
  report_requires_two_ticks (mkSoftRealtimeLoop 3 2 true 0) 4
    (by norm_num [mkSoftRealtimeLoop]) (.inl rfl)
